import Mathlib

/-!
Shallow embedding of the core of `cal_wrapper.py` (Cal.com API wrapper):
the timezone-conversion engine (`TimezoneHandler`), the display formatter
(`DateTimeFormatter`), the request envelope (`CalApiClient._make_request`),
the booking matcher (`BookingMatcher`) and the five public operations.

Modelling conventions, stated once:

* A Python `datetime` is embedded as `DT`: whole minutes since the Unix
  epoch (1970-01-01T00:00 UTC) together with the second and microsecond
  inside that minute.  All timezone offsets are whole minutes (true of
  every IANA zone the program can receive from the runtime for the modern
  dates it handles), so `replace(second=0, microsecond=0)` — truncation to
  minute precision — is `DT.truncMin`, and shifting between zones never
  touches `sec`/`usec`.
* Strings fed to `datetime.fromisoformat` (after the code's
  `.replace("Z", "+00:00")`) are embedded as `IsoStr`: either a
  well-formed string carrying its own UTC offset (`aware`, denoting the
  UTC instant), a well-formed string with no offset (`naive`, denoting
  wall-clock fields), or a malformed string (`invalid`, on which
  `fromisoformat` raises `ValueError`; the empty string is malformed).
* A pytz timezone is embedded as `Tz`: `utcOff u` is the offset (minutes)
  the zone assigns to the absolute instant `u` (the offset `astimezone`
  applies), and `locOff wl` is the offset `localize` (with its default
  `is_dst=False`) picks for the naive wall-clock `wl`.  For a wall-clock
  inside a DST spring-forward gap, pytz's `localize(is_dst=False)` picks
  the standard-time offset, so `utcOff` and `locOff` can disagree there.
* `pytz.timezone` is embedded as a lookup in an arbitrary database
  `World.db`; `datetime.now(pytz.UTC)` is `World.now`; the system
  timezone assumed by `astimezone` on naive datetimes is `World.sysTz`.
* Python exceptions are explicit: a function that can raise returns
  `Except PyErr _`; an uncaught exception is `.error`.  `try/except`
  blocks are the corresponding `match`es, catching exactly the listed
  exception classes.
* Calendar rendering (`strftime`) is modelled for instants at or after
  the epoch, which covers every date the program can meet in its claims.
-/

/-- A Python `datetime` value at microsecond resolution: `min` is whole
minutes since 1970-01-01T00:00 UTC, `sec` and `usec` the second and
microsecond within that minute. -/
structure DT where
  min : Int
  sec : Nat
  usec : Nat
deriving DecidableEq

/-- Truncation to minute precision: `dt.replace(second=0, microsecond=0)`. -/
def DT.truncMin (d : DT) : DT := ⟨d.min, 0, 0⟩

/-- Shift an instant by a whole number of minutes (timezone offsets are
whole minutes, so `sec`/`usec` are untouched). -/
def DT.addMin (d : DT) (k : Int) : DT := ⟨d.min + k, d.sec, d.usec⟩

/-- Strict order on datetimes (Python `<` on two aware datetimes denoting
instants); lexicographic on (minute, second, microsecond). -/
def dtLt (a b : DT) : Bool :=
  if a.min ≠ b.min then decide (a.min < b.min)
  else if a.sec ≠ b.sec then decide (a.sec < b.sec)
  else decide (a.usec < b.usec)

/-- Civil (year, month, day) from a day count since 1970-01-01, for
non-negative day counts (Howard Hinnant's `civil_from_days`, specialised
to the post-epoch dates this program renders). -/
def civilFromDays (z0 : Nat) : Nat × Nat × Nat :=
  let z := z0 + 719468
  let era := z / 146097
  let doe := z % 146097
  let yoe := (doe - doe / 1460 + doe / 36524 - doe / 146096) / 365
  let doy := doe - (365 * yoe + yoe / 4 - yoe / 100)
  let mp := (5 * doy + 2) / 153
  let d := doy - (153 * mp + 2) / 5 + 1
  let m := if mp < 10 then mp + 3 else mp - 9
  (yoe + era * 400 + (if m ≤ 2 then 1 else 0), m, d)

/-- The wall-clock fields of a datetime, as `strftime` reads them. -/
structure Fields where
  year : Nat
  month : Nat
  day : Nat
  hour : Nat
  minute : Nat
deriving DecidableEq

/-- Split a (post-epoch) datetime into its wall-clock fields. -/
def DT.fields (dt : DT) : Fields :=
  let days := dt.min.toNat / 1440
  let rest := dt.min.toNat % 1440
  let c := civilFromDays days
  ⟨c.1, c.2.1, c.2.2, rest / 60, rest % 60⟩

/-- Two-digit zero-padded decimal rendering (`%m`, `%d`, `%H`, `%M`, `%S`). -/
def pad2 (n : Nat) : String :=
  String.mk [Nat.digitChar (n / 10 % 10), Nat.digitChar (n % 10)]

/-- Four-digit zero-padded decimal rendering (`%Y` for the years in range). -/
def pad4 (n : Nat) : String :=
  String.mk [Nat.digitChar (n / 1000 % 10), Nat.digitChar (n / 100 % 10),
             Nat.digitChar (n / 10 % 10), Nat.digitChar (n % 10)]

/-- Six-digit zero-padded decimal rendering (`%f`, microseconds). -/
def pad6 (n : Nat) : String :=
  String.mk [Nat.digitChar (n / 100000 % 10), Nat.digitChar (n / 10000 % 10),
             Nat.digitChar (n / 1000 % 10), Nat.digitChar (n / 100 % 10),
             Nat.digitChar (n / 10 % 10), Nat.digitChar (n % 10)]

/-- English month names for `%B`. -/
def monthName (m : Nat) : String :=
  ["January", "February", "March", "April", "May", "June", "July",
   "August", "September", "October", "November", "December"].getD (m - 1) ""

/-- Embedding of Python `str.lower()` as the source applies it to the
ASCII status strings (`booking.get('status', '').lower()`). -/
def pyLower (s : String) : String := String.mk (s.toList.map Char.toLower)

/-- Python exception values that the embedded code can raise. -/
inductive PyErr where
  | valueError (msg : String)
  | unknownTimeZoneError (tzName : String)
  | typeError (msg : String)
deriving DecidableEq

/-- Abstraction of the strings handed to `datetime.fromisoformat` (after
`.replace("Z", "+00:00")`): a string either denotes an instant with its
own UTC offset (`aware`), a wall-clock with no offset (`naive`), or is
malformed (`invalid`, carrying the raw text; the empty string — also how
an absent dict field surfaces through `.get(..., '')` — is malformed). -/
inductive IsoStr where
  | aware (d : DT)
  | naive (wall : DT)
  | invalid (raw : String)
deriving DecidableEq

/-- Python truthiness test `if not s:` on the underlying string: only the
empty (hence malformed) string is falsy; well-formed ISO strings are
never empty. -/
def IsoStr.isEmptyStr : IsoStr → Bool
  | .invalid s => s.isEmpty
  | _ => false

/-- Canonical rendering of the underlying string, used only to build the
messages the source interpolates the raw input into. -/
def IsoStr.raw : IsoStr → String
  | .aware d => pad4 d.fields.year ++ "-" ++ pad2 d.fields.month ++ "-" ++ pad2 d.fields.day
      ++ "T" ++ pad2 d.fields.hour ++ ":" ++ pad2 d.fields.minute ++ ":" ++ pad2 d.sec ++ "+00:00"
  | .naive w => pad4 w.fields.year ++ "-" ++ pad2 w.fields.month ++ "-" ++ pad2 w.fields.day
      ++ "T" ++ pad2 w.fields.hour ++ ":" ++ pad2 w.fields.minute ++ ":" ++ pad2 w.sec
  | .invalid s => s

/-- Result of a successful `datetime.fromisoformat`: an aware datetime
(denoting a UTC instant) or a naive one (wall-clock fields only). -/
inductive ParsedDT where
  | aware (d : DT)
  | naive (wall : DT)
deriving DecidableEq

/-- The wall-clock/instant value of a parse result (for an aware UTC
datetime the two coincide). -/
def ParsedDT.value : ParsedDT → DT
  | .aware d => d
  | .naive w => w

/-- Embedding of `datetime.fromisoformat(s.replace("Z", "+00:00"))`:
succeeds exactly on well-formed strings, raises `ValueError` otherwise. -/
def fromisoformat : IsoStr → Except PyErr ParsedDT
  | .aware d => .ok (.aware d)
  | .naive w => .ok (.naive w)
  | .invalid s => .error (.valueError ("Invalid isoformat string: '" ++ s ++ "'"))

/-- A pytz timezone: `utcOff u` is the UTC offset (minutes) at the absolute
instant `u` (what `astimezone` applies); `locOff wl` is the offset
`localize` (default `is_dst=False`) attaches to the naive wall-clock `wl`. -/
structure Tz where
  utcOff : DT → Int
  locOff : DT → Int

/-- The pytz `UTC` zone. -/
def utcTz : Tz := ⟨fun _ => 0, fun _ => 0⟩

/-- The ambient runtime: the timezone database behind `pytz.timezone`
(for names other than the literal `"UTC"`), the system timezone that
`astimezone` assumes for naive datetimes, and the value of
`datetime.now(pytz.UTC)`. -/
structure World where
  db : String → Option Tz
  sysTz : Tz
  now : DT

/-- Embedding of `pytz.timezone(name)`: the literal `"UTC"` always
resolves to the UTC zone, other names through the database. -/
def pytzTimezone (w : World) (tzName : String) : Option Tz :=
  if tzName = "UTC" then some utcTz else w.db tzName

/-- Wall-clock of `dt.astimezone(z)`: for an aware datetime shift the
instant by the zone's offset there; a naive datetime is presumed to be in
the system timezone first. -/
def astimezoneWall (w : World) (p : ParsedDT) (z : Tz) : DT :=
  match p with
  | .aware d => d.addMin (z.utcOff d)
  | .naive wall =>
      let u := wall.addMin (-(w.sysTz.locOff wall))
      u.addMin (z.utcOff u)

/-- Body of `TimezoneHandler.convert_utc_to_user_timezone` before its
`except` clause: parse the string, return it unchanged for `"UTC"`, else
resolve the zone and project.  Returns the wall-clock of the result. -/
def convertUtcToUserBody (w : World) (s : IsoStr) (userTimezone : String) : Except PyErr DT :=
  match fromisoformat s with
  | .error e => .error e
  | .ok p =>
      if userTimezone = "UTC" then .ok p.value
      else
        match w.db userTimezone with
        | none => .error (.unknownTimeZoneError userTimezone)
        | some z => .ok (astimezoneWall w p z)

/-- `TimezoneHandler.convert_utc_to_user_timezone`: the `except
(pytz.UnknownTimeZoneError, ValueError)` clause turns any such failure of
the body into the current UTC time. -/
def convert_utc_to_user_timezone (w : World) (s : IsoStr) (userTimezone : String) : DT :=
  match convertUtcToUserBody w s userTimezone with
  | .ok d => d
  | .error _ => w.now

/-- Exception-level view of `convert_utc_to_user_timezone`: the `except`
clause catches exactly `ValueError` and `pytz.UnknownTimeZoneError`
(returning "now"); any other exception class would escape. -/
def convertUtcToUserExc (w : World) (s : IsoStr) (userTimezone : String) : Except PyErr DT :=
  match convertUtcToUserBody w s userTimezone with
  | .ok d => .ok d
  | .error (.valueError _) => .ok w.now
  | .error (.unknownTimeZoneError _) => .ok w.now
  | .error e => .error e

/-- Abstraction of the `(date_str, time_str)` pair handed to
`datetime.strptime(f"{date_str} {time_str}", '%Y-%m-%d %H:%M')`: either
the pair is well-formed and denotes the wall-clock minute `wallMin`
(seconds and microseconds are zero by the format), or parsing raises
`ValueError`.  The raw strings are kept for message rendering. -/
inductive LocalQuery where
  | valid (dateRaw timeRaw : String) (wallMin : Int)
  | invalid (dateRaw timeRaw : String)
deriving DecidableEq

/-- The raw date string of a query. -/
def LocalQuery.dateRaw : LocalQuery → String
  | .valid d _ _ => d
  | .invalid d _ => d

/-- The raw time string of a query. -/
def LocalQuery.timeRaw : LocalQuery → String
  | .valid _ t _ => t
  | .invalid _ t => t

/-- Body of `TimezoneHandler.convert_user_time_to_utc` before its
`except` clause: parse the wall-clock, attach UTC directly for `"UTC"`,
else `localize` in the resolved zone and convert to UTC. -/
def convertUserTimeBody (w : World) (q : LocalQuery) (userTimezone : String) : Except PyErr DT :=
  match q with
  | .invalid d t =>
      .error (.valueError ("time data '" ++ d ++ " " ++ t ++ "' does not match format '%Y-%m-%d %H:%M'"))
  | .valid _ _ m =>
      if userTimezone = "UTC" then .ok ⟨m, 0, 0⟩
      else
        match w.db userTimezone with
        | none => .error (.unknownTimeZoneError userTimezone)
        | some z => .ok ⟨m - z.locOff ⟨m, 0, 0⟩, 0, 0⟩

/-- `TimezoneHandler.convert_user_time_to_utc`: on any `ValueError` or
`pytz.UnknownTimeZoneError` the `except` clause returns the current UTC
time. -/
def convert_user_time_to_utc (w : World) (q : LocalQuery) (userTimezone : String) : DT :=
  match convertUserTimeBody w q userTimezone with
  | .ok d => d
  | .error _ => w.now

/-- Exception-level view of `convert_user_time_to_utc`: exactly
`ValueError` and `pytz.UnknownTimeZoneError` are caught. -/
def convertUserTimeExc (w : World) (q : LocalQuery) (userTimezone : String) : Except PyErr DT :=
  match convertUserTimeBody w q userTimezone with
  | .ok d => .ok d
  | .error (.valueError _) => .ok w.now
  | .error (.unknownTimeZoneError _) => .ok w.now
  | .error e => .error e

/-- `TimezoneHandler.parse_utc_datetime_string`: parse, re-raising a
parse failure as `ValueError` with the module's own message. -/
def parse_utc_datetime_string (s : IsoStr) : Except PyErr ParsedDT :=
  match fromisoformat s with
  | .ok p => .ok p
  | .error _ => .error (.valueError ("Invalid UTC datetime format: " ++ s.raw))

/-- The raw `strftime('%Y-%m-%dT%H:%M:%S.%fZ')` rendering of an aware UTC
datetime, before the `[:-3]` slice. -/
def apiUtcFormatRaw (d : DT) : String :=
  let f := d.fields
  pad4 f.year ++ "-" ++ pad2 f.month ++ "-" ++ pad2 f.day ++ "T" ++
    pad2 f.hour ++ ":" ++ pad2 f.minute ++ ":" ++ pad2 d.sec ++ "." ++ pad6 d.usec ++ "Z"

/-- Python slice `s[:-3]`: drop the last three characters. -/
def pyDropLast3 (s : String) : String :=
  String.mk (s.toList.take (s.toList.length - 3))

/-- `TimezoneHandler.convert_iso_to_utc_api_format`: parse the ISO string
(raising `ValueError` on malformed input), localize a naive value in the
user timezone (an unresolvable zone is also re-raised as `ValueError`),
convert to UTC and render via `strftime('%Y-%m-%dT%H:%M:%S.%fZ')[:-3] + 'Z'`. -/
def convert_iso_to_utc_api_format (w : World) (s : IsoStr) (userTimezone : String) :
    Except PyErr String :=
  match fromisoformat s with
  | .error _ =>
      .error (.valueError ("Invalid start time format '" ++ s.raw ++ "'. Please use ISO 8601 format."))
  | .ok (.aware d) => .ok (pyDropLast3 (apiUtcFormatRaw d) ++ "Z")
  | .ok (.naive wall) =>
      match pytzTimezone w userTimezone with
      | none =>
          .error (.valueError ("Invalid start time format '" ++ s.raw ++ "'. Please use ISO 8601 format."))
      | some z =>
          let u := wall.addMin (-(z.locOff wall))
          .ok (pyDropLast3 (apiUtcFormatRaw u) ++ "Z")

/-- The `FormatType` enum of the source. -/
inductive FormatType where
  | TIME_ONLY
  | DATE_TIME
  | FRIENDLY
  | DEFAULT
deriving DecidableEq

/-- Embedding of the enum constructor `FormatType(s)` on a string: the
four declared values resolve, anything else raises `ValueError`. -/
def formatTypeOfString (s : String) : Option FormatType :=
  if s = "time_only" then some .TIME_ONLY
  else if s = "date_time" then some .DATE_TIME
  else if s = "friendly" then some .FRIENDLY
  else if s = "datetime" then some .DEFAULT
  else none

/-- The `format_type` argument of `format_for_display`: either a
`FormatType` member or a plain string. -/
inductive FormatArg where
  | enum (ft : FormatType)
  | str (s : String)
deriving DecidableEq

/-- Twelve-hour clock hour for `%I` (01..12). -/
def hour12 (h : Nat) : Nat :=
  if h % 12 = 0 then 12 else h % 12

/-- Meridiem for `%p`. -/
def meridiem (h : Nat) : String :=
  if h < 12 then "AM" else "PM"

/-- `dt.strftime(pattern)` for the four patterns of `FORMAT_PATTERNS`
(`%H:%M`, `%Y-%m-%d %H:%M` for both `DATE_TIME` and `DEFAULT`, and
`%B %d, %Y at %I:%M %p`). -/
def strftimeOf (ft : FormatType) (dt : DT) : String :=
  let f := dt.fields
  match ft with
  | .TIME_ONLY => pad2 f.hour ++ ":" ++ pad2 f.minute
  | .DATE_TIME =>
      pad4 f.year ++ "-" ++ pad2 f.month ++ "-" ++ pad2 f.day ++ " " ++ pad2 f.hour ++ ":" ++ pad2 f.minute
  | .DEFAULT =>
      pad4 f.year ++ "-" ++ pad2 f.month ++ "-" ++ pad2 f.day ++ " " ++ pad2 f.hour ++ ":" ++ pad2 f.minute
  | .FRIENDLY =>
      monthName f.month ++ " " ++ pad2 f.day ++ ", " ++ pad4 f.year ++ " at " ++
        pad2 (hour12 f.hour) ++ ":" ++ pad2 f.minute ++ " " ++ meridiem f.hour

/-- Python `str(dt)` on the wall-clock fields, the fallback rendering of
the formatter's `except` branch (the `tzinfo` suffix of an aware value is
not modelled; no claim inspects it). -/
def pyStrOfDT (dt : DT) : String :=
  let f := dt.fields
  pad4 f.year ++ "-" ++ pad2 f.month ++ "-" ++ pad2 f.day ++ " " ++
    pad2 f.hour ++ ":" ++ pad2 f.minute ++ ":" ++ pad2 dt.sec ++
    (if dt.usec = 0 then "" else "." ++ pad6 dt.usec)

/-- `DateTimeFormatter.format_for_display`: convert a string argument to
the enum (a `ValueError` there is caught and yields `str(dt)`), look the
pattern up (every member is in the dict, so the `DEFAULT` fallback of
`.get` never fires) and render.  The `user_timezone` parameter is
accepted but never used. -/
def format_for_display (dt : DT) (userTimezone : String) (formatType : FormatArg) : String :=
  match (match formatType with
         | .enum ft => some ft
         | .str s => formatTypeOfString s) with
  | none => pyStrOfDT dt
  | some ft => strftimeOf ft dt

/-- How the JSON body of a sub-400 response parses: `requests`'
`response.json()` raises `ValueError` on malformed JSON, returns `None`
for the JSON literal `null`, and otherwise (for this API) an object. -/
inductive JsonParse (α : Type) where
  | malformed (msg : String)
  | null
  | obj (payload : α)
deriving DecidableEq

/-- One remote call's outcome, as `requests.request` presents it: either
a `RequestException` (connection refused, timeout, DNS failure), or a
response with a status code, raw text, and a JSON parse of the body. -/
inductive RequestOutcome (α : Type) where
  | exc (msg : String)
  | resp (status : Nat) (text : String) (body : JsonParse α)
deriving DecidableEq

/-- The `ApiResponse` dataclass. -/
structure ApiResponse (α : Type) where
  success : Bool
  data : Option α := none
  error : Option String := none
  status_code : Option Nat := none
deriving DecidableEq

/-- `CalApiClient._make_request`: status ≥ 400 becomes a failure envelope
carrying the status and raw body; a transport exception a failure with
its message; a body that fails to parse as JSON a failure; otherwise a
success envelope with the parsed payload (`None` for a `null` body) and
the status code. -/
def _make_request {α : Type} (o : RequestOutcome α) : ApiResponse α :=
  match o with
  | .exc msg => { success := false, error := some msg }
  | .resp st text body =>
      if 400 ≤ st then
        { success := false, error := some ("HTTP " ++ toString st ++ ": " ++ text),
          status_code := some st }
      else
        match body with
        | .malformed msg =>
            { success := false, error := some ("Invalid JSON response: " ++ msg) }
        | .null => { success := true, data := none, status_code := some st }
        | .obj p => { success := true, data := some p, status_code := some st }

/-- Whether the outcome is a sub-400 response whose body is the JSON
literal `null`. -/
def isNullBody {α : Type} : RequestOutcome α → Bool
  | .resp st _ .null => decide (st < 400)
  | _ => false

/-- One booking dict as the remote API returns it.  `status` is read
through `.get('status', '')`, so an absent field is the empty string;
`start`/`finish` (the `start`/`end` fields) through `.get(..., '')`, so
an absent field is the empty — malformed — string `IsoStr.invalid ""`. -/
structure Booking where
  uid : Option String := none
  title : Option String := none
  status : String := ""
  start : IsoStr := .invalid ""
  finish : IsoStr := .invalid ""
deriving DecidableEq

/-- The payload of the bookings-list endpoint: `status`, optional
`error`, and the `data` list (read through `.get("data", [])`). -/
structure BookingsPayload where
  status : Option String := none
  error : Option String := none
  data : Option (List Booking) := none
deriving DecidableEq

/-- The loop body of `BookingMatcher.find_booking_by_time` for one
booking: skip unless the status lowercases to `"accepted"`; skip an empty
start; skip (with a logged warning) a start that fails to parse; a start
that parses naive compares unequal to the aware target (Python `==`
between naive and aware is `False`); otherwise compare both sides
truncated to minute precision. -/
def bookingMatches (b : Booking) (target : DT) : Bool :=
  if pyLower b.status ≠ "accepted" then false
  else if b.start.isEmptyStr then false
  else
    match parse_utc_datetime_string b.start with
    | .error _ => false
    | .ok (.naive _) => false
    | .ok (.aware d) => decide (d.truncMin = target.truncMin)

/-- `BookingMatcher.find_booking_by_time`: convert the query to UTC and
return the first booking the loop matches.  (The enclosing
`except Exception` returns `None`; every operation in the loop is total
here, so that branch is unreachable.) -/
def find_booking_by_time (w : World) (bookings : List Booking) (q : LocalQuery)
    (userTimezone : String) : Option Booking :=
  let target := convert_user_time_to_utc w q userTimezone
  bookings.find? (fun b => bookingMatches b target)

/-- `BookingMatcher.format_booking_list`: render the first `limit`
bookings; a booking with an empty start renders a placeholder line.  (The
per-booking `except` is unreachable: the conversion and formatting it
guards are total.) -/
def format_booking_list (w : World) (bookings : List Booking) (userTimezone : String)
    (limit : Nat) : List String :=
  (bookings.take limit).map fun b =>
    let title := b.title.getD "Untitled"
    if b.start.isEmptyStr then
      "- " ++ title ++ ": No start time available"
    else
      let dtw := convert_utc_to_user_timezone w b.start userTimezone
      let disp := format_for_display dtw userTimezone (.enum .DATE_TIME)
      "- " ++ title ++ ": " ++ disp ++ " (" ++ userTimezone ++ ")"

/-- The filter step of `_get_upcoming_accepted_bookings` for one booking:
keep only status `"accepted"` (case-insensitive); drop an empty/absent
start outright (the `if booking_start:` guard); keep a start that parses
to an instant strictly after now; a start that fails to parse raises
inside the `try`, and the `except Exception` appends the booking ("to be
safe"); a start that parses naive makes the `>` comparison raise
`TypeError`, which the same `except` also turns into inclusion. -/
def keepUpcoming (now : DT) (b : Booking) : Bool :=
  if pyLower b.status ≠ "accepted" then false
  else if b.start.isEmptyStr then false
  else
    match parse_utc_datetime_string b.start with
    | .error _ => true
    | .ok (.naive _) => true
    | .ok (.aware d) => dtLt now d

/-- `_get_upcoming_accepted_bookings`, taking the already-made fetch
response: propagate a failure envelope as an error string; a missing (or
falsy) payload or a payload whose `status` is not `"success"` as an
API-failure string; otherwise filter the booking list.  (A `None` error
interpolates as the text `"None"`, as Python f-strings do.) -/
def _get_upcoming_accepted_bookings (w : World) (resp : ApiResponse BookingsPayload) :
    Option (List Booking) × Option String :=
  if !resp.success then
    (none, some ("Error fetching bookings: " ++ resp.error.getD "None"))
  else
    match resp.data with
    | none => (none, some "Error: API returned failure. Details: No data")
    | some p =>
        if p.status ≠ some "success" then
          (none, some ("Error: API returned failure. Details: " ++ p.error.getD "Unknown error"))
        else
          (some ((p.data.getD []).filter (keepUpcoming w.now)), none)

/-- The configuration fields `CalApiConfig` reads from the environment. -/
structure CalConfig where
  api_key : Option String := none
  event_type_id : Option String := none
  user_email : Option String := none
deriving DecidableEq

/-- Python falsiness of an optional string (`if not config.event_type_id:`):
`None` and the empty string are falsy. -/
def optFalsy : Option String → Bool
  | none => true
  | some s => s.isEmpty

/-- Digit run to a number, `none` if empty or not all digits. -/
def digitsToNat (cs : List Char) : Option Nat :=
  if cs.isEmpty then none
  else if cs.all Char.isDigit then
    some (cs.foldl (fun a c => a * 10 + (c.toNat - '0'.toNat)) 0)
  else none

/-- Surrounding-whitespace strip, on the character list. -/
def stripChars (cs : List Char) : List Char :=
  ((cs.dropWhile Char.isWhitespace).reverse.dropWhile Char.isWhitespace).reverse

/-- Embedding of Python `int(s)` on a string: surrounding whitespace is
stripped, an optional sign precedes one or more decimal digits; anything
else raises `ValueError`.  (Underscore digit grouping is not modelled;
no claim turns on it.) -/
def pyInt (s : String) : Option Int :=
  match stripChars s.toList with
  | '-' :: rest => (digitsToNat rest).map (fun n => -(n : Int))
  | '+' :: rest => (digitsToNat rest).map (fun n => (n : Int))
  | rest => (digitsToNat rest).map (fun n => (n : Int))

/-- One availability slot dict (`start`/`end` read through `.get(..., '')`). -/
structure Slot where
  start : IsoStr := .invalid ""
  finish : IsoStr := .invalid ""
deriving DecidableEq

/-- The payload of the slots endpoint: `data` maps a date string to its
slot list. -/
structure SlotsPayload where
  status : Option String := none
  error : Option String := none
  data : Option (List (String × List Slot)) := none
deriving DecidableEq

/-- The payload of the booking-mutation endpoints (create / cancel /
reschedule); only `create_booking` reads `data.uid`. -/
structure MutationData where
  uid : Option String := none
deriving DecidableEq

/-- Envelope payload for the mutation endpoints. -/
structure MutationPayload where
  status : Option String := none
  error : Option String := none
  data : Option MutationData := none
deriving DecidableEq

/-- The `get_available_slots` tool, taking the already-made slots
response.  Every branch returns a string; the `Except` codomain records
that no exception escapes (the per-slot `except` guards only total
operations). -/
def get_available_slots (w : World) (cfg : CalConfig) (resp : ApiResponse SlotsPayload)
    (date : String) (userTimezone : String) : Except PyErr String :=
  if optFalsy cfg.event_type_id then
    .ok "Error: EVENT_TYPE_ID is not configured. Please check your .env file."
  else if !resp.success then
    .ok ("Error fetching available slots: " ++ resp.error.getD "None")
  else
    match resp.data with
    | none => .ok "Error: API returned failure. Details: No data"
    | some p =>
        if p.status ≠ some "success" then
          .ok ("Error: API returned failure. Details: " ++ p.error.getD "Unknown error")
        else
          let slotsData := p.data.getD []
          if slotsData.isEmpty then .ok ("No available slots found for " ++ date ++ ".")
          else
            match slotsData.lookup date with
            | none => .ok ("No available slots found for " ++ date ++ ".")
            | some slots =>
                if slots.isEmpty then .ok ("No available slots found for " ++ date ++ ".")
                else
                  let lines := (slots.enumFrom 1).map fun is =>
                    let startT := format_for_display
                      (convert_utc_to_user_timezone w is.2.start userTimezone)
                      userTimezone (.enum .TIME_ONLY)
                    let endT := format_for_display
                      (convert_utc_to_user_timezone w is.2.finish userTimezone)
                      userTimezone (.enum .TIME_ONLY)
                    toString is.1 ++ ". " ++ startT ++ " - " ++ endT ++ " " ++ userTimezone
                  .ok ("Available slots for " ++ date ++ " (" ++ userTimezone ++ "):\n" ++
                    String.intercalate "\n" lines)

/-- Message text of an exception, as Python `str(e)` renders it. -/
def pyErrStr : PyErr → String
  | .valueError m => m
  | .unknownTimeZoneError tzName => "'" ++ tzName ++ "'"
  | .typeError m => m

/-- The `create_booking` tool, taking the already-made creation response.
The `try` around the time conversion catches only `ValueError` and
returns `str(e)`; the later `int(config.event_type_id)` in the payload
construction is outside any `try`, so its `ValueError` escapes the
operation (hence the `Except` codomain). -/
def create_booking (w : World) (cfg : CalConfig) (resp : ApiResponse MutationPayload)
    (startTimeIso : IsoStr) (userName userEmail title : String) (userTimezone : String) :
    Except PyErr String :=
  if optFalsy cfg.event_type_id then
    .ok "Error: EVENT_TYPE_ID is not configured. Please check your .env file."
  else
    match convert_iso_to_utc_api_format w startTimeIso userTimezone with
    | .error e => .ok (pyErrStr e)
    | .ok _utcTime =>
        match pyInt (cfg.event_type_id.getD "") with
        | none =>
            .error (.valueError ("invalid literal for int() with base 10: '" ++
              cfg.event_type_id.getD "" ++ "'"))
        | some _etid =>
            if !resp.success then
              .ok ("Error: Booking creation failed. " ++ resp.error.getD "None")
            else
              match resp.data with
              | none => .ok "Error: Booking creation failed. API response: No data"
              | some p =>
                  if p.status ≠ some "success" then
                    .ok ("Error: Booking creation failed. API response: " ++
                      p.error.getD "Unknown error")
                  else
                    let uid := ((p.data.getD ⟨none⟩).uid).getD "Unknown UID"
                    let displayTime := format_for_display
                      (convert_utc_to_user_timezone w startTimeIso userTimezone)
                      userTimezone (.enum .FRIENDLY)
                    .ok ("Success! Meeting '" ++ title ++ "' booked for " ++ userName ++
                      " on " ++ displayTime ++ " (" ++ userTimezone ++
                      "). Confirmation sent to " ++ userEmail ++ ". Booking UID: " ++ uid)

/-- The `list_bookings` tool, taking the already-made fetch response. -/
def list_bookings (w : World) (resp : ApiResponse BookingsPayload) (userTimezone : String) :
    String :=
  match _get_upcoming_accepted_bookings w resp with
  | (_, some e) => e
  | (bso, none) =>
      let bs := bso.getD []
      if bs.isEmpty then "No upcoming accepted bookings found for that email."
      else
        let lines := bs.map fun b =>
          let title := b.title.getD "Untitled"
          let uid := b.uid.getD "No UID"
          let startF := format_for_display
            (convert_utc_to_user_timezone w b.start userTimezone)
            userTimezone (.enum .DATE_TIME)
          let endF := format_for_display
            (convert_utc_to_user_timezone w b.finish userTimezone)
            userTimezone (.enum .TIME_ONLY)
          "- Title: " ++ title ++ ", Start: " ++ startF ++ ", End: " ++ endF ++
            " (" ++ userTimezone ++ "), Booking UID: " ++ uid
        "Upcoming accepted bookings (" ++ toString bs.length ++ " found) in " ++
          userTimezone ++ ":\n" ++ String.intercalate "\n" lines

/-- Python falsiness of `matching_booking.get('uid')`: `None` (field
absent) and the empty string are falsy. -/
def uidFalsy (uid : Option String) : Bool :=
  match uid with
  | none => true
  | some s => s.isEmpty

/-- The candidate list shown when no booking matches the requested time. -/
def noMatchCandidates (w : World) (bs : List Booking) (userTimezone : String) : String :=
  let bl := format_booking_list w bs userTimezone 5
  if bl.isEmpty then "None found" else String.intercalate "\n" bl

/-- The `cancel_booking` tool, taking the already-made fetch and cancel
responses.  The second component records whether the cancellation request
was actually issued to the remote API. -/
def cancel_booking (w : World) (fetchResp : ApiResponse BookingsPayload)
    (cancelResp : ApiResponse MutationPayload) (q : LocalQuery) (userTimezone : String) :
    String × Bool :=
  match _get_upcoming_accepted_bookings w fetchResp with
  | (_, some e) => ("Error: Could not retrieve bookings. " ++ e, false)
  | (bso, none) =>
      let bs := bso.getD []
      if bs.isEmpty then ("No upcoming accepted bookings found for that email.", false)
      else
        match find_booking_by_time w bs q userTimezone with
        | none =>
            ("No booking found for " ++ q.dateRaw ++ " at " ++ q.timeRaw ++ " (" ++
              userTimezone ++ "). Your upcoming accepted bookings:\n" ++
              noMatchCandidates w bs userTimezone, false)
        | some b =>
            let title := b.title.getD "Untitled"
            if uidFalsy b.uid then
              ("Error: Booking UID not found in booking data.", false)
            else
              let uid := b.uid.getD ""
              if !cancelResp.success then
                ("Error: Could not cancel the booking. " ++ cancelResp.error.getD "None", true)
              else
                match cancelResp.data with
                | none => ("Error: Could not cancel the booking. API response: No data", true)
                | some p =>
                    if p.status ≠ some "success" then
                      ("Error: Could not cancel the booking. API response: " ++
                        p.error.getD "Unknown error", true)
                    else
                      let displayTime := format_for_display
                        (convert_utc_to_user_timezone w b.start userTimezone)
                        userTimezone (.enum .FRIENDLY)
                      ("Success! Booking '" ++ title ++ "' scheduled for " ++ displayTime ++
                        " (" ++ userTimezone ++ ") has been cancelled. Booking UID: " ++ uid, true)

/-- The `reschedule_booking` tool, taking the already-made fetch and
reschedule responses.  The second component records whether the
reschedule request was issued.  (The debug `try` around the current-time
conversion guards a total function, so its `except` return is
unreachable.) -/
def reschedule_booking (w : World) (fetchResp : ApiResponse BookingsPayload)
    (resResp : ApiResponse MutationPayload) (userEmail : String) (q : LocalQuery)
    (newStartTimeIso : IsoStr) (userTimezone : String) : String × Bool :=
  match _get_upcoming_accepted_bookings w fetchResp with
  | (_, some e) => ("Error: Could not retrieve bookings. " ++ e, false)
  | (bso, none) =>
      let bs := bso.getD []
      if bs.isEmpty then ("No upcoming accepted bookings found for that email.", false)
      else
        match find_booking_by_time w bs q userTimezone with
        | none =>
            ("No booking found for " ++ q.dateRaw ++ " at " ++ q.timeRaw ++ " (" ++
              userTimezone ++ "). Your upcoming accepted bookings:\n" ++
              noMatchCandidates w bs userTimezone, false)
        | some b =>
            match convert_iso_to_utc_api_format w newStartTimeIso userTimezone with
            | .error e => (pyErrStr e, false)
            | .ok _newUtc =>
                let title := b.title.getD "Untitled"
                if uidFalsy b.uid then
                  ("Error: Booking UID not found in booking data.", false)
                else
                  let uid := b.uid.getD ""
                  if !resResp.success then
                    ("Error: Could not reschedule the booking. " ++ resResp.error.getD "None", true)
                  else
                    match resResp.data with
                    | none => ("Error: Reschedule failed. API response: No data", true)
                    | some p =>
                        if p.status ≠ some "success" then
                          ("Error: Reschedule failed. API response: " ++
                            p.error.getD "Unknown error", true)
                        else
                          let oldT := format_for_display
                            (convert_utc_to_user_timezone w b.start userTimezone)
                            userTimezone (.enum .FRIENDLY)
                          let newT := format_for_display
                            (convert_utc_to_user_timezone w newStartTimeIso userTimezone)
                            userTimezone (.enum .FRIENDLY)
                          ("✅ Successfully rescheduled '" ++ title ++ "'!\nFrom: " ++ oldT ++
                            " (" ++ userTimezone ++ ")\nTo: " ++ newT ++ " (" ++ userTimezone ++
                            ")\nBooking UID: " ++ uid, true)

/-- A world with an empty timezone database (no zone other than the
literal `"UTC"` resolves) whose current time is 2025-01-01T00:00 UTC
(epoch minute 28928160). -/
def w0 : World := { db := fun _ => none, sysTz := utcTz, now := ⟨28928160, 0, 0⟩ }

/-- 2025-07-24T18:00:00 UTC (epoch minute 29223000). -/
def dtJul24 : DT := ⟨29223000, 0, 0⟩

/-- An accepted demo booking starting 2025-07-24T18:00:00.347123Z —
sub-minute jitter on an exact-minute instant. -/
def demoBooking : Booking :=
  { uid := some "123", title := some "Daily Sync", status := "accepted",
    start := .aware ⟨29223000, 0, 347123⟩, finish := .aware ⟨29223030, 0, 0⟩ }

/-- An accepted booking whose `start` field is the empty string (absent
from the dict): its start fails `fromisoformat`, yet the upcoming filter
drops it at the `if booking_start:` guard. -/
def emptyStartBooking : Booking :=
  { uid := some "124", title := some "Ghost", status := "accepted", start := .invalid "" }

/-- An accepted booking with no `uid` field, starting 2025-07-24T18:00 UTC. -/
def noUidBooking : Booking :=
  { uid := none, title := some "Orphan", status := "accepted",
    start := .aware ⟨29223000, 0, 0⟩, finish := .aware ⟨29223030, 0, 0⟩ }

/-- A successful bookings-fetch envelope with the given booking list. -/
def okBookingsResp (bs : List Booking) : ApiResponse BookingsPayload :=
  { success := true,
    data := some { status := some "success", error := none, data := some bs },
    status_code := some 200 }

/-- A successful mutation envelope. -/
def okMutationResp : ApiResponse MutationPayload :=
  { success := true,
    data := some { status := some "success", error := none, data := some { uid := some "u1" } },
    status_code := some 200 }

/-- America/New_York around the DST spring-forward of 2021-03-14, as
pytz presents it: the UTC offset flips from −300 to −240 minutes at
2021-03-14T07:00 UTC (epoch minute 26928420); `localize` (default
`is_dst=False`) attaches −300 to wall-clocks before 03:00 local (epoch
wall minute 26928180) — including the nonexistent 02:00–02:59 gap, for
which it picks the standard offset — and −240 from 03:00 on. -/
def nyTz : Tz :=
  { utcOff := fun u => if u.min < 26928420 then -300 else -240,
    locOff := fun wl => if wl.min < 26928180 then -300 else -240 }

/-- A world whose database resolves exactly `"America/New_York"`. -/
def nyWorld : World :=
  { db := fun s => if s = "America/New_York" then some nyTz else none,
    sysTz := utcTz, now := ⟨28928160, 0, 0⟩ }

/-- Configuration whose event-type id is the non-numeric string `"abc"`. -/
def cfgBad : CalConfig := { api_key := some "key", event_type_id := some "abc" }

/-- Configuration with a numeric event-type id. -/
def cfgOk : CalConfig := { api_key := some "key", event_type_id := some "12345" }

/-- A successful slots envelope with one slot on 2025-07-24. -/
def okSlotsResp : ApiResponse SlotsPayload :=
  { success := true,
    data := some { status := some "success", error := none,
                   data := some [("2025-07-24", [{ start := .aware ⟨29223000, 0, 0⟩,
                                                   finish := .aware ⟨29223030, 0, 0⟩ }])] },
    status_code := some 200 }

example : dtJul24.fields = ⟨2025, 7, 24, 18, 0⟩ := by decide
example : (⟨26928150, 0, 0⟩ : DT).fields = ⟨2021, 3, 14, 2, 30⟩ := by decide
example : (⟨26928210, 0, 0⟩ : DT).fields = ⟨2021, 3, 14, 3, 30⟩ := by decide
example : apiUtcFormatRaw dtJul24 = "2025-07-24T18:00:00.000000Z" := by decide
example : pyDropLast3 (apiUtcFormatRaw dtJul24) ++ "Z" = "2025-07-24T18:00:00.0000Z" := by decide

theorem bookingMatches_iff (b : Booking) (t : DT) :
    bookingMatches b t = true ↔
      pyLower b.status = "accepted" ∧
      ∃ d, parse_utc_datetime_string b.start = .ok (.aware d) ∧ d.truncMin = t.truncMin := by
  rcases b with ⟨uid, title, status, start, finish⟩
  unfold bookingMatches
  cases start with
  | aware d =>
      by_cases h : pyLower status = "accepted" <;>
        simp [h, parse_utc_datetime_string, fromisoformat, IsoStr.isEmptyStr]
  | naive wall =>
      by_cases h : pyLower status = "accepted" <;>
        simp [h, parse_utc_datetime_string, fromisoformat, IsoStr.isEmptyStr]
  | invalid s =>
      by_cases h : pyLower status = "accepted" <;>
        simp [h, parse_utc_datetime_string, fromisoformat, IsoStr.isEmptyStr]

/-- C10: the output of `DateTimeFormatter.format_for_display` is
independent of its `user_timezone` argument — two calls with the same
datetime and format kind but different timezone strings return the
identical string (the parameter is accepted but never read). -/
theorem format_for_display_timezone_independent (dt : DT) (ft : FormatArg) (tz1 tz2 : String) :
    format_for_display dt tz1 ft = format_for_display dt tz2 ft := rfl

/-- C2 (code bug): on the valid ISO input 2025-07-24T18:00:00.000Z with
timezone `"UTC"`, `convert_iso_to_utc_api_format` returns
`"2025-07-24T18:00:00.0000Z"` — four fractional digits, not the
`YYYY-MM-DDTHH:MM:SS.mmmZ` millisecond format the spec fixes.  The slice
`strftime('%Y-%m-%dT%H:%M:%S.%fZ')[:-3]` removes the final `Z` and only
two of the six microsecond digits before re-appending `'Z'`. -/
theorem iso_api_format_emits_four_fraction_digits :
    convert_iso_to_utc_api_format w0 (.aware dtJul24) "UTC" = .ok "2025-07-24T18:00:00.0000Z" ∧
    "2025-07-24T18:00:00.0000Z" ≠ "2025-07-24T18:00:00.000Z" ∧
    dtJul24.fields = ⟨2025, 7, 24, 18, 0⟩ :=
  ⟨rfl, by decide, by decide⟩

/-- C7: `find_booking_by_time` never returns a booking whose status does
not lowercase to `"accepted"`, regardless of time equality. -/
theorem find_booking_by_time_only_accepted (w : World) (bs : List Booking) (q : LocalQuery)
    (tz : String) (b : Booking) (h : find_booking_by_time w bs q tz = some b) :
    pyLower b.status = "accepted" := by
  have h' : List.find? (fun x => bookingMatches x (convert_user_time_to_utc w q tz)) bs
      = some b := h
  have hm : bookingMatches b (convert_user_time_to_utc w q tz) = true := by
    simpa using List.find?_some h'
  exact ((bookingMatches_iff b _).mp hm).1

/-- Witness for C7 at a concrete input: the matcher applied to the demo
list returns the demo booking, whose status the theorem then shows is
accepted. -/
theorem find_booking_by_time_only_accepted_witness :
    pyLower demoBooking.status = "accepted" :=
  find_booking_by_time_only_accepted w0 [demoBooking]
    (.valid "2025-07-24" "18:00" 29223000) "UTC" demoBooking rfl

/-- C1: for a well-formed `(target_date, target_time, tz)` query, the
matcher compares at minute precision.  Conjuncts: (1)–(2) the computed
target is the query's UTC equivalent (directly for `"UTC"`, via the
zone's `localize` offset otherwise); (3) any booking the matcher returns
has a parsed aware start equal to the target after both are truncated to
minute precision — i.e. they differ at most in seconds/sub-second
components; (4) if the list holds an accepted booking whose parsed start
agrees with the target at minute precision, the matcher returns a
booking; (5) a booking whose parsed start lies exactly one minute before
or after the target is never returned. -/
theorem find_booking_by_time_minute_match (w : World) (bs : List Booking)
    (dRaw tRaw : String) (m : Int) (tz : String) :
    (tz = "UTC" → convert_user_time_to_utc w (.valid dRaw tRaw m) tz = ⟨m, 0, 0⟩) ∧
    (∀ z, tz ≠ "UTC" → w.db tz = some z →
       convert_user_time_to_utc w (.valid dRaw tRaw m) tz = ⟨m - z.locOff ⟨m, 0, 0⟩, 0, 0⟩) ∧
    (∀ b, find_booking_by_time w bs (.valid dRaw tRaw m) tz = some b →
       ∃ d, parse_utc_datetime_string b.start = .ok (.aware d) ∧
         d.truncMin = (convert_user_time_to_utc w (.valid dRaw tRaw m) tz).truncMin) ∧
    ((∃ b, b ∈ bs ∧ pyLower b.status = "accepted" ∧
        ∃ d, parse_utc_datetime_string b.start = .ok (.aware d) ∧
          d.truncMin = (convert_user_time_to_utc w (.valid dRaw tRaw m) tz).truncMin) →
      (find_booking_by_time w bs (.valid dRaw tRaw m) tz).isSome) ∧
    (∀ b d, parse_utc_datetime_string b.start = .ok (.aware d) →
      (d.min = (convert_user_time_to_utc w (.valid dRaw tRaw m) tz).min + 1 ∨
       d.min = (convert_user_time_to_utc w (.valid dRaw tRaw m) tz).min - 1) →
      find_booking_by_time w bs (.valid dRaw tRaw m) tz ≠ some b) := by
  refine ⟨?_, ?_, ?_, ?_, ?_⟩
  · intro h
    simp [convert_user_time_to_utc, convertUserTimeBody, h]
  · intro z hne hz
    simp [convert_user_time_to_utc, convertUserTimeBody, hne, hz]
  · intro b hb
    have h' : List.find?
        (fun x => bookingMatches x (convert_user_time_to_utc w (.valid dRaw tRaw m) tz)) bs
        = some b := hb
    have hm : bookingMatches b (convert_user_time_to_utc w (.valid dRaw tRaw m) tz) = true := by
      simpa using List.find?_some h'
    exact ((bookingMatches_iff b _).mp hm).2
  · rintro ⟨b, hmem, hacc, d, hp, ht⟩
    have hm : bookingMatches b (convert_user_time_to_utc w (.valid dRaw tRaw m) tz) = true :=
      (bookingMatches_iff b _).mpr ⟨hacc, d, hp, ht⟩
    have : (List.find?
        (fun x => bookingMatches x (convert_user_time_to_utc w (.valid dRaw tRaw m) tz)) bs).isSome :=
      List.find?_isSome.mpr ⟨b, hmem, hm⟩
    exact this
  · intro b d hp hpm hfind
    have h' : List.find?
        (fun x => bookingMatches x (convert_user_time_to_utc w (.valid dRaw tRaw m) tz)) bs
        = some b := hfind
    have hm : bookingMatches b (convert_user_time_to_utc w (.valid dRaw tRaw m) tz) = true := by
      simpa using List.find?_some h'
    obtain ⟨-, d', hp', ht'⟩ := (bookingMatches_iff b _).mp hm
    have hd : d = d' := by
      have := hp.symm.trans hp'
      simpa using this
    subst hd
    have hmin : d.min = (convert_user_time_to_utc w (.valid dRaw tRaw m) tz).min := by
      have h2 := congrArg DT.min ht'
      simpa [DT.truncMin] using h2
    rcases hpm with h1 | h1 <;> omega

/-- Witness for C1: the demo booking starts 2025-07-24T18:00:00.347123Z
(sub-minute jitter only), the query resolves to 18:00:00 exactly, and a
match is returned. -/
theorem find_booking_by_time_minute_match_witness :
    (find_booking_by_time w0 [demoBooking] (.valid "2025-07-24" "18:00" 29223000) "UTC").isSome :=
  (find_booking_by_time_minute_match w0 [demoBooking] "2025-07-24" "18:00" 29223000 "UTC").2.2.2.1
    ⟨demoBooking, by decide, by decide, ⟨29223000, 0, 347123⟩, rfl, by decide⟩

theorem keepUpcoming_iff (now : DT) (b : Booking) :
    keepUpcoming now b = true ↔
      pyLower b.status = "accepted" ∧ b.start.isEmptyStr = false ∧
      (match parse_utc_datetime_string b.start with
       | .ok (.aware d) => dtLt now d = true
       | .ok (.naive _) => True
       | .error _ => True) := by
  rcases b with ⟨uid, title, status, start, finish⟩
  unfold keepUpcoming
  cases start with
  | aware d =>
      by_cases h : pyLower status = "accepted" <;>
        simp [h, parse_utc_datetime_string, fromisoformat, IsoStr.isEmptyStr]
  | naive wall =>
      by_cases h : pyLower status = "accepted" <;>
        simp [h, parse_utc_datetime_string, fromisoformat, IsoStr.isEmptyStr]
  | invalid s =>
      by_cases h : pyLower status = "accepted" <;>
      by_cases he : s.isEmpty <;>
        simp [h, he, parse_utc_datetime_string, fromisoformat, IsoStr.isEmptyStr]

/-- C3 (amended): on a successful fetch whose payload status is
`"success"`, `_get_upcoming_accepted_bookings` reports no error and its
kept list contains exactly the payload bookings that (a) have status
`"accepted"` case-insensitively, (b) have a non-empty `start` field, and
(c) either parse to an instant strictly after the current UTC instant,
or fail to parse (inclusion bias on parse failure), or parse without a
UTC offset (the comparison with "now" raises `TypeError`, which the
catch-all likewise turns into inclusion).  In particular an accepted
booking whose `start` field is empty or absent is excluded even though
its start does not parse. -/
theorem upcoming_accepted_characterization (w : World) (resp : ApiResponse BookingsPayload)
    (p : BookingsPayload) (hs : resp.success = true) (hd : resp.data = some p)
    (hst : p.status = some "success") :
    (_get_upcoming_accepted_bookings w resp).2 = none ∧
    (_get_upcoming_accepted_bookings w resp).1.isSome ∧
    ∀ b, b ∈ ((_get_upcoming_accepted_bookings w resp).1.getD []) ↔
      (b ∈ p.data.getD [] ∧ pyLower b.status = "accepted" ∧ b.start.isEmptyStr = false ∧
        (match parse_utc_datetime_string b.start with
         | .ok (.aware d) => dtLt w.now d = true
         | .ok (.naive _) => True
         | .error _ => True)) := by
  have hres : _get_upcoming_accepted_bookings w resp
      = (some ((p.data.getD []).filter (keepUpcoming w.now)), none) := by
    unfold _get_upcoming_accepted_bookings
    rw [hs, hd]
    simp [hst]
  refine ⟨by rw [hres], by rw [hres]; rfl, ?_⟩
  intro b
  rw [hres]
  simp only [Option.getD_some]
  rw [List.mem_filter]
  constructor
  · rintro ⟨hmem, hk⟩
    obtain ⟨h1, h2, h3⟩ := (keepUpcoming_iff w.now b).mp hk
    exact ⟨hmem, h1, h2, h3⟩
  · rintro ⟨hmem, h1, h2, h3⟩
    exact ⟨hmem, (keepUpcoming_iff w.now b).mpr ⟨h1, h2, h3⟩⟩

/-- Witness for C3 (amended) at a concrete successful fetch: no error is
reported, a kept list is produced, and the demo booking (accepted,
non-empty start parsing to a future instant) is a member. -/
theorem upcoming_accepted_characterization_witness :
    (_get_upcoming_accepted_bookings w0 (okBookingsResp [demoBooking])).2 = none ∧
    demoBooking ∈ ((_get_upcoming_accepted_bookings w0 (okBookingsResp [demoBooking])).1.getD []) := by
  have h := upcoming_accepted_characterization w0 (okBookingsResp [demoBooking])
    { status := some "success", error := none, data := some [demoBooking] } rfl rfl rfl
  refine ⟨h.1, (h.2.2 demoBooking).mpr ?_⟩
  exact ⟨by decide, by decide, by decide,
    (by decide : dtLt w0.now ⟨29223000, 0, 347123⟩ = true)⟩

/-- C3 (counterexample to the claim as stated): a successful fetch
carries one accepted booking whose `start` field is the empty string;
its start fails to parse (`fromisoformat` raises `ValueError` on the
empty string), so the claim's inclusion bias demands it be kept — yet
the code's `if booking_start:` guard drops it before parsing ever runs,
and the kept list is empty. -/
theorem upcoming_accepted_drops_empty_start :
    (_get_upcoming_accepted_bookings w0 (okBookingsResp [emptyStartBooking])).1 = some [] ∧
    pyLower emptyStartBooking.status = "accepted" ∧
    fromisoformat emptyStartBooking.start = .error (.valueError "Invalid isoformat string: ''") := by
  refine ⟨by decide, by decide, rfl⟩

/-- C5 (amended): converting a local wall-clock to UTC with
`convert_user_time_to_utc` and projecting the resulting instant back
with `convert_utc_to_user_timezone` into the same timezone reproduces
the original wall-clock minute, provided the timezone is the literal
`"UTC"`, or resolves and assigns the resulting UTC instant the same
offset that `localize` chose for the wall-clock — the condition that the
wall-clock does not fall in a DST spring-forward gap. -/
theorem local_to_utc_roundtrip (w : World) (dRaw tRaw : String) (m : Int) (tz : String) :
    (tz = "UTC" →
      (convert_utc_to_user_timezone w
        (.aware (convert_user_time_to_utc w (.valid dRaw tRaw m) tz)) tz).min = m) ∧
    (∀ z, tz ≠ "UTC" → w.db tz = some z →
      z.utcOff ⟨m - z.locOff ⟨m, 0, 0⟩, 0, 0⟩ = z.locOff ⟨m, 0, 0⟩ →
      (convert_utc_to_user_timezone w
        (.aware (convert_user_time_to_utc w (.valid dRaw tRaw m) tz)) tz).min = m) := by
  constructor
  · intro h
    subst h
    simp [convert_user_time_to_utc, convertUserTimeBody, convert_utc_to_user_timezone,
      convertUtcToUserBody, fromisoformat, ParsedDT.value]
  · intro z hne hz hcons
    simp only [convert_user_time_to_utc, convertUserTimeBody, if_neg hne, hz]
    simp only [convert_utc_to_user_timezone, convertUtcToUserBody, fromisoformat,
      if_neg hne, hz, astimezoneWall, DT.addMin]
    simp [hcons]

/-- C5 (counterexample to the claim as stated): the syntactically valid
triple (2021-03-14, 02:30, America/New_York) names a wall-clock inside
the DST spring-forward gap.  `localize(is_dst=False)` attaches the
standard offset (−300), giving 07:30 UTC (epoch minute 26928450), but
projecting that instant back applies the daylight offset (−240), landing
on wall-clock 03:30 (epoch wall minute 26928210) — not the original
02:30 (26928150). -/
theorem local_to_utc_roundtrip_fails_in_dst_gap :
    convert_user_time_to_utc nyWorld (.valid "2021-03-14" "02:30" 26928150) "America/New_York"
      = ⟨26928450, 0, 0⟩ ∧
    (convert_utc_to_user_timezone nyWorld (.aware ⟨26928450, 0, 0⟩) "America/New_York").min
      = 26928210 ∧
    (⟨26928150, 0, 0⟩ : DT).fields = ⟨2021, 3, 14, 2, 30⟩ ∧
    (⟨26928210, 0, 0⟩ : DT).fields = ⟨2021, 3, 14, 3, 30⟩ ∧
    (26928210 : Int) ≠ 26928150 := by
  refine ⟨rfl, rfl, by decide, by decide, by decide⟩

/-- Witness for C5 (amended): an ordinary July afternoon in
America/New_York (wall-clock 2025-07-24 14:00, epoch wall minute
29222760) survives the round trip. -/
theorem local_to_utc_roundtrip_witness :
    (convert_utc_to_user_timezone nyWorld
      (.aware (convert_user_time_to_utc nyWorld
        (.valid "2025-07-24" "14:00" 29222760) "America/New_York")) "America/New_York").min
      = 29222760 :=
  (local_to_utc_roundtrip nyWorld "2025-07-24" "14:00" 29222760 "America/New_York").2
    nyTz (by decide) rfl (by decide)

/-- C6: neither read-path conversion propagates an error.  The
exception-level views never return an error value (the `except` clauses
catch exactly the two classes the bodies can raise); an unparseable
datetime string — e.g. the literal `"invalid-datetime"` — and an
unresolvable timezone name both fall back to the current UTC time. -/
theorem timezone_conversions_never_raise (w : World) (s : IsoStr) (q : LocalQuery) (tz : String) :
    (∀ e, convertUtcToUserExc w s tz ≠ .error e) ∧
    (∀ e, convertUserTimeExc w q tz ≠ .error e) ∧
    (∀ raw, convert_utc_to_user_timezone w (.invalid raw) tz = w.now) ∧
    (∀ dr tr, convert_user_time_to_utc w (.invalid dr tr) tz = w.now) ∧
    (tz ≠ "UTC" → w.db tz = none →
      convert_utc_to_user_timezone w s tz = w.now ∧
      convert_user_time_to_utc w q tz = w.now) := by
  refine ⟨?_, ?_, ?_, ?_, ?_⟩
  · intro e
    cases s with
    | invalid raw => simp [convertUtcToUserExc, convertUtcToUserBody, fromisoformat]
    | aware d =>
        by_cases h : tz = "UTC"
        · simp [convertUtcToUserExc, convertUtcToUserBody, fromisoformat, h, ParsedDT.value]
        · cases hz : w.db tz <;>
            simp [convertUtcToUserExc, convertUtcToUserBody, fromisoformat, h, hz]
    | naive d =>
        by_cases h : tz = "UTC"
        · simp [convertUtcToUserExc, convertUtcToUserBody, fromisoformat, h, ParsedDT.value]
        · cases hz : w.db tz <;>
            simp [convertUtcToUserExc, convertUtcToUserBody, fromisoformat, h, hz]
  · intro e
    cases q with
    | invalid dr tr => simp [convertUserTimeExc, convertUserTimeBody]
    | valid dr tr m =>
        by_cases h : tz = "UTC"
        · simp [convertUserTimeExc, convertUserTimeBody, h]
        · cases hz : w.db tz <;> simp [convertUserTimeExc, convertUserTimeBody, h, hz]
  · intro raw
    simp [convert_utc_to_user_timezone, convertUtcToUserBody, fromisoformat]
  · intro dr tr
    simp [convert_user_time_to_utc, convertUserTimeBody]
  · intro hne hz
    constructor
    · cases s with
      | invalid raw => simp [convert_utc_to_user_timezone, convertUtcToUserBody, fromisoformat]
      | aware d =>
          simp [convert_utc_to_user_timezone, convertUtcToUserBody, fromisoformat, hne, hz]
      | naive d =>
          simp [convert_utc_to_user_timezone, convertUtcToUserBody, fromisoformat, hne, hz]
    · cases q with
      | invalid dr tr => simp [convert_user_time_to_utc, convertUserTimeBody]
      | valid dr tr m => simp [convert_user_time_to_utc, convertUserTimeBody, hne, hz]

/-- Witness for C6: the spec's concrete example — the literal input
`"invalid-datetime"` with timezone `"UTC"` — returns the current UTC
time, as do an invalid query pair and a valid instant with an
unresolvable timezone. -/
theorem timezone_conversions_never_raise_witness :
    convert_utc_to_user_timezone w0 (.invalid "invalid-datetime") "UTC" = w0.now ∧
    convert_user_time_to_utc w0 (.invalid "bad-date" "bad-time") "Invalid/Timezone" = w0.now ∧
    convert_utc_to_user_timezone w0 (.aware dtJul24) "Invalid/Timezone" = w0.now := by
  refine ⟨?_, ?_, ?_⟩
  · exact (timezone_conversions_never_raise w0 (.invalid "invalid-datetime")
      (.invalid "bad-date" "bad-time") "UTC").2.2.1 "invalid-datetime"
  · exact (timezone_conversions_never_raise w0 (.invalid "invalid-datetime")
      (.invalid "bad-date" "bad-time") "Invalid/Timezone").2.2.2.1 "bad-date" "bad-time"
  · exact ((timezone_conversions_never_raise w0 (.aware dtJul24)
      (.invalid "bad-date" "bad-time") "Invalid/Timezone").2.2.2.2 (by decide) rfl).1

/-- C8 (amended): every envelope `_make_request` produces satisfies: on
success the error is absent, the status code is present, and the payload
is present except when the (sub-400) body was the JSON literal `null`;
on failure an error message is present and the payload is absent. -/
theorem make_request_envelope {α : Type} (o : RequestOutcome α) :
    ((_make_request o).success = true →
      (_make_request o).error = none ∧ ((_make_request o).status_code).isSome = true ∧
      ((_make_request o).data).isSome = !(isNullBody o)) ∧
    ((_make_request o).success = false →
      ((_make_request o).error).isSome = true ∧ (_make_request o).data = none) := by
  cases o with
  | exc msg => simp [_make_request, isNullBody]
  | resp st text body =>
      by_cases h : 400 ≤ st
      · cases body <;> simp [_make_request, isNullBody, h]
      · cases body <;> (simp [_make_request, isNullBody, h]; try omega)

/-- Witness for C8 at a concrete outcome: a 200 response with an object
body yields a success envelope with no error, a status code, and a
payload. -/
theorem make_request_envelope_witness :
    (_make_request (.resp 200 "" (.obj ({ status := some "success" } : BookingsPayload)))).error
        = none ∧
    ((_make_request (.resp 200 "" (.obj ({ status := some "success" } : BookingsPayload)))).data).isSome
        = true := by
  have h := (make_request_envelope
    (.resp 200 "" (.obj ({ status := some "success" } : BookingsPayload)))).1 (by decide)
  exact ⟨h.1, by rw [h.2.2]; rfl⟩

/-- C8 (counterexample to the claim as stated): a 200 response whose
body is the JSON literal `null` parses successfully (`response.json()`
returns `None`), so `_make_request` builds a success envelope — but its
payload is absent, contradicting the claim that success implies the
parsed payload is present. -/
theorem make_request_success_without_payload :
    (_make_request (.resp 200 "null" (.null : JsonParse BookingsPayload))).success = true ∧
    (_make_request (.resp 200 "null" (.null : JsonParse BookingsPayload))).data = none ∧
    (_make_request (.resp 200 "null" (.null : JsonParse BookingsPayload))).status_code = some 200 := by
  refine ⟨by decide, by decide, by decide⟩

/-- C4 (amended): the public operations return a descriptive string for
every remote outcome — `list_bookings`, `cancel_booking` and
`reschedule_booking` are total string-valued functions by construction,
and `get_available_slots` never raises; `create_booking` never raises
provided the configured event-type id is falsy (caught by the
configuration check) or parses as an integer — the uncaught
`int(config.event_type_id)` is its one escape hatch. -/
theorem operations_return_strings (w : World) (cfg : CalConfig)
    (slotsResp : ApiResponse SlotsPayload) (createResp : ApiResponse MutationPayload)
    (fetchResp : ApiResponse BookingsPayload) (cancelResp resResp : ApiResponse MutationPayload)
    (date tz userName userEmail title : String) (s newIso : IsoStr) (q : LocalQuery)
    (hid : optFalsy cfg.event_type_id = true ∨ (pyInt (cfg.event_type_id.getD "")).isSome = true) :
    (∃ msg, get_available_slots w cfg slotsResp date tz = .ok msg) ∧
    (∃ msg, create_booking w cfg createResp s userName userEmail title tz = .ok msg) ∧
    (∃ msg, list_bookings w fetchResp tz = msg) ∧
    (∃ msg hit, cancel_booking w fetchResp cancelResp q tz = (msg, hit)) ∧
    (∃ msg hit, reschedule_booking w fetchResp resResp userEmail q newIso tz = (msg, hit)) := by
  refine ⟨?_, ?_, ⟨_, rfl⟩, ⟨_, _, rfl⟩, ⟨_, _, rfl⟩⟩
  · unfold get_available_slots
    repeat' split
    all_goals try exact ⟨_, rfl⟩
    all_goals dsimp only
    all_goals repeat' split
    all_goals exact ⟨_, rfl⟩
  · unfold create_booking
    repeat' split
    all_goals try exact ⟨_, rfl⟩
    exfalso
    rcases hid with h1 | h1 <;> simp_all

/-- Witness for C4 (amended) at concrete inputs with a numeric
event-type id: both operations with a raise path return `.ok`. -/
theorem operations_return_strings_witness :
    (∃ msg, get_available_slots w0 cfgOk okSlotsResp "2025-07-24" "UTC" = .ok msg) ∧
    (∃ msg, create_booking w0 cfgOk okMutationResp (.aware dtJul24) "Alice"
      "alice@example.com" "Sync" "UTC" = .ok msg) := by
  have h := operations_return_strings w0 cfgOk okSlotsResp okMutationResp
    (okBookingsResp [demoBooking]) okMutationResp okMutationResp
    "2025-07-24" "UTC" "Alice" "alice@example.com" "Sync" (.aware dtJul24) (.aware dtJul24)
    (.valid "2025-07-24" "18:00" 29223000) (Or.inr (by decide))
  exact ⟨h.1, h.2.1⟩

/-- C4 (counterexample to the claim as stated): with the event-type id
configured as the non-numeric, non-empty string `"abc"`, a create call
with a valid start time passes the configuration check and the time
conversion, then raises `ValueError` at the uncaught
`int(config.event_type_id)` in the payload construction — an exception
escaping the operation's boundary instead of a returned string. -/
theorem create_booking_raises_on_nonnumeric_event_type_id :
    create_booking w0 cfgBad okMutationResp (.aware dtJul24) "Alice" "alice@example.com"
        "Sync" "UTC"
      = .error (.valueError "invalid literal for int() with base 10: 'abc'") := rfl

/-- C9: when `find_booking_by_time` matches a booking whose `uid` is
missing (or empty — Python falsiness), `cancel_booking` returns the
fixed data-integrity error string and does not issue the cancellation
request; and that string differs from every possible "no match found"
message. -/
theorem cancel_booking_missing_uid (w : World) (fetchResp : ApiResponse BookingsPayload)
    (cancelResp : ApiResponse MutationPayload) (q : LocalQuery) (tz : String)
    (bs : List Booking) (b : Booking)
    (hup : _get_upcoming_accepted_bookings w fetchResp = (some bs, none))
    (hne : bs.isEmpty = false)
    (hfind : find_booking_by_time w bs q tz = some b)
    (huid : uidFalsy b.uid = true) :
    cancel_booking w fetchResp cancelResp q tz
      = ("Error: Booking UID not found in booking data.", false) ∧
    ∀ dr tr tzs rest, ("Error: Booking UID not found in booking data." : String) ≠
      "No booking found for " ++ dr ++ " at " ++ tr ++ " (" ++ tzs ++
        "). Your upcoming accepted bookings:\n" ++ rest := by
  constructor
  · unfold cancel_booking
    rw [hup]
    simp [hne, hfind, huid]
  · intro dr tr tzs rest h
    obtain ⟨drl⟩ := dr
    obtain ⟨trl⟩ := tr
    obtain ⟨tzl⟩ := tzs
    obtain ⟨rl⟩ := rest
    have hh : (some 'E' : Option Char) = some 'N' := congrArg (fun s => s.data.head?) h
    exact absurd hh (by decide)

/-- Witness for C9: a fetch returning one future accepted booking with
no `uid`; the cancel operation reports the data-integrity error and
issues no cancellation call. -/
theorem cancel_booking_missing_uid_witness :
    cancel_booking w0 (okBookingsResp [noUidBooking]) okMutationResp
      (.valid "2025-07-24" "18:00" 29223000) "UTC"
      = ("Error: Booking UID not found in booking data.", false) :=
  (cancel_booking_missing_uid w0 (okBookingsResp [noUidBooking]) okMutationResp
    (.valid "2025-07-24" "18:00" 29223000) "UTC" [noUidBooking] noUidBooking
    rfl rfl rfl rfl).1
